import Mathlib

/-!
Verification of `sequana_pipelines/variant_calling/main.py` (repository
cokelaer/variant_calling).

The file embeds, as pure Lean functions:
  * the command-line parser built in `Options.__init__` (an
    `argparse.ArgumentParser` with the five explicit options
    `--run-mode`, `--output-directory`, `--fastq-directory`,
    `--input-pattern`, `--threads`);
  * the config-patch step of `main` (lines 89-93 of `main.py`), which
    evaluates `options.bcl_directory`, `os.path.abspath`, and the two
    assignments `cfg.input_directory = ...` and
    `cfg.bcl2fastq.threads = ...`;
  * the surrounding run `parse -> manager.setup() -> patch ->
    manager.teardown()`.

External collaborators that are not part of this repository
(`argparse` itself, `os.path.abspath`, `sequana.pipelines_common`'s
`PipelineManager` and the delegated Slurm/Snakemake option groups, and
the template configuration file) are modelled from the specification's
description of their contracts; each such definition says so in its doc
comment.  The delegated Slurm/Snakemake option groups add options whose
names are disjoint from the five explicit option names and from
`--bcl-directory`; they are opaque pass-through blocks and are omitted
from the embedded parser.
-/

set_option autoImplicit false

/-- Decidable equality on `Except`, used to evaluate runs on concrete
inputs. -/
instance exceptDecEq {ε α : Type} [DecidableEq ε] [DecidableEq α] :
    DecidableEq (Except ε α) := fun x y =>
  match x, y with
  | Except.ok a, Except.ok b =>
    if h : a = b then isTrue (by rw [h]) else
      isFalse (by intro hc; cases hc; exact h rfl)
  | Except.error a, Except.error b =>
    if h : a = b then isTrue (by rw [h]) else
      isFalse (by intro hc; cases hc; exact h rfl)
  | Except.ok a, Except.error b => isFalse (by intro hc; cases hc)
  | Except.error a, Except.ok b => isFalse (by intro hc; cases hc)

namespace VariantCalling

/-- The five option specifications registered on the parser in
`Options.__init__` (main.py lines 42-72). -/
inductive OptSpec where
  | runMode
  | outputDirectory
  | fastqDirectory
  | inputPattern
  | threadsOpt
deriving DecidableEq, Repr

/-- Option-string lookup: which of the five registered options a
long-option name denotes (main.py lines 42-72).  `none` means the
option string is unrecognized. -/
def lookupSpec (n : String) : Option OptSpec :=
  if n = "--run-mode" then some OptSpec.runMode
  else if n = "--output-directory" then some OptSpec.outputDirectory
  else if n = "--fastq-directory" then some OptSpec.fastqDirectory
  else if n = "--input-pattern" then some OptSpec.inputPattern
  else if n = "--threads" then some OptSpec.threadsOpt
  else none

/-- Intermediate parser state: each destination is `none` until an
occurrence of the corresponding option stores a value (argparse stores
into the namespace as it scans). -/
structure ScanState where
  run_mode : Option String
  outdir : Option String
  fastq_directory : Option String
  input_pattern : Option String
  threads : Option Int
deriving DecidableEq, Repr

/-- The empty namespace before any token is consumed. -/
def initState : ScanState :=
  { run_mode := none, outdir := none, fastq_directory := none,
    input_pattern := none, threads := none }

/-- Digits of a Python decimal integer literal: at least one character,
all decimal digits. -/
def decDigits? : List Char → Option Nat
  | [] => none
  | cs =>
    if cs.all Char.isDigit then
      some (cs.foldl (fun n c => 10 * n + (c.toNat - 48)) 0)
    else none

/-- Modelled from the spec: Python's `int(...)` conversion used by
argparse for `type=int` (`--threads`, main.py line 72): an optional
sign followed by decimal digits; anything else raises `ValueError`,
which argparse turns into a usage error. -/
def pyInt (s : String) : Option Int :=
  match s.data with
  | '-' :: cs => (decDigits? cs).map (fun n => -(n : Int))
  | '+' :: cs => (decDigits? cs).map (fun n => (n : Int))
  | cs => (decDigits? cs).map (fun n => (n : Int))

/-- Store one option value into the namespace, duplicating argparse's
per-action checks: `--run-mode` is checked against
`choices=['local','slurm']` (main.py line 46), `--threads` goes through
`type=int` (main.py line 72); the three plain string options store the
raw value. -/
def applyOpt (spec : OptSpec) (v : String) (st : ScanState) :
    Except String ScanState :=
  match spec with
  | OptSpec.runMode =>
    if v = "local" ∨ v = "slurm" then
      Except.ok { st with run_mode := some v }
    else Except.error "argument --run-mode: invalid choice"
  | OptSpec.outputDirectory => Except.ok { st with outdir := some v }
  | OptSpec.fastqDirectory =>
    Except.ok { st with fastq_directory := some v }
  | OptSpec.inputPattern => Except.ok { st with input_pattern := some v }
  | OptSpec.threadsOpt =>
    match pyInt v with
    | some n => Except.ok { st with threads := some n }
    | none => Except.error "argument --threads: invalid int value"

/-- Split a token at its first `=` (argparse's `--name=value` form):
returns the characters before the first `=` and, when an `=` is
present, the characters after it. -/
def splitEqChars : List Char → List Char × Option (List Char)
  | [] => ([], none)
  | c :: cs =>
    if c = '=' then ([], some cs)
    else
      let p := splitEqChars cs
      (c :: p.1, p.2)

/-- Modelled from the spec: argparse's negative-number test.  Since
none of the parser's option strings looks like a negative number, a
token of the form `-digits` is treated as a value, not as an option. -/
def looksLikeNegNum (tok : String) : Bool :=
  match tok.data with
  | '-' :: c :: cs => (c :: cs).all Char.isDigit
  | _ => false

/-- A token is option-like when it starts with the prefix character
`-`, is longer than `-` itself, and does not look like a negative
number (argparse's classification for this parser, which has no
single-dash option strings). -/
def isOptionToken (tok : String) : Bool :=
  match tok.data with
  | '-' :: _ :: _ => !(looksLikeNegNum tok)
  | _ => false

/-- Scan the token list left to right, as argparse consumes
`--name value` and `--name=value` occurrences.  The parser declares no
positional arguments, so a non-option token in option position is a
usage error; an unknown option string is a usage error; an option
missing its value is a usage error. -/
def scanTokens : List String → ScanState → Except String ScanState
  | [], st => Except.ok st
  | tok :: rest, st =>
    if isOptionToken tok then
      match lookupSpec (String.mk (splitEqChars tok.data).1) with
      | none => Except.error "unrecognized arguments"
      | some spec =>
        match (splitEqChars tok.data).2 with
        | some vChars =>
          match applyOpt spec (String.mk vChars) st with
          | Except.ok st2 => scanTokens rest st2
          | Except.error e => Except.error e
        | none =>
          match rest with
          | [] => Except.error "expected one argument"
          | v :: rest2 =>
            if isOptionToken v then Except.error "expected one argument"
            else
              match applyOpt spec v st with
              | Except.ok st2 => scanTokens rest2 st2
              | Except.error e => Except.error e
    else Except.error "unrecognized arguments"

/-- The parsed namespace produced by `Options(NAME).parse_args`:
destinations `run_mode`, `outdir`, `fastq_directory`, `input_pattern`,
`threads` (main.py lines 42-72).  There is no `bcl_directory`
destination. -/
structure ParsedOptions where
  run_mode : String
  outdir : String
  fastq_directory : String
  input_pattern : String
  threads : Int
deriving DecidableEq, Repr

/-- `Options(NAME).parse_args(args[1:])`: scan the tokens, then enforce
the `required=True` options (`--run-mode`, `--fastq-directory`) and
fill the argparse defaults `outdir="fastqc"`,
`input_pattern="*fastq.gz"`, `threads=4` (main.py lines 42-72). -/
def parse_args (args : List String) : Except String ParsedOptions :=
  match scanTokens args initState with
  | Except.error e => Except.error e
  | Except.ok st =>
    match st.run_mode, st.fastq_directory with
    | some rm, some fd =>
      Except.ok { run_mode := rm, outdir := st.outdir.getD "fastqc",
                  fastq_directory := fd,
                  input_pattern := st.input_pattern.getD "*fastq.gz",
                  threads := st.threads.getD 4 }
    | _, _ => Except.error "the following arguments are required"

/-- A primitive configuration value: a string or an integer. -/
inductive Prim where
  | s (v : String)
  | i (v : Int)
deriving DecidableEq, Repr

/-- A field of the configuration object: a primitive value or a nested
section (one nesting level suffices for the fields this program
touches, `input_directory` and `bcl2fastq.threads`). -/
inductive CField where
  | prim (p : Prim)
  | table (fields : List (String × Prim))
deriving DecidableEq, Repr

/-- Modelled from the spec: the in-memory configuration object staged
by the manager (`manager.config.config`), a nested key-value structure
mirroring the pipeline's YAML config schema.  Attribute read on a
missing key raises an attribute/key error; attribute write overwrites
an existing key or creates a new one. -/
abbrev Config : Type := List (String × CField)

/-- Attribute read on the configuration object: `none` models the
attribute/key error the config object raises on a missing key. -/
def Config.getAttr (cfg : Config) (name : String) : Option CField :=
  match cfg with
  | [] => none
  | (k, v) :: rest =>
    if k = name then some v else Config.getAttr rest name

/-- Attribute write on the configuration object: overwrite the first
binding of `name`, or append a new one. -/
def Config.setAttr (cfg : Config) (name : String) (v : CField) :
    Config :=
  match cfg with
  | [] => [(name, v)]
  | (k, w) :: rest =>
    if k = name then (name, v) :: rest
    else (k, w) :: Config.setAttr rest name v

/-- Attribute write on a nested configuration section. -/
def tableSet (t : List (String × Prim)) (name : String) (v : Prim) :
    List (String × Prim) :=
  match t with
  | [] => [(name, v)]
  | (k, w) :: rest =>
    if k = name then (name, v) :: rest else (k, w) :: tableSet rest name v

/-- A Python exception escaping the patch step. -/
inductive PyErr where
  | attributeError (obj attr : String)
  | typeError (msg : String)
deriving DecidableEq, Repr

/-- Attribute lookup on the parsed `argparse.Namespace`: only the five
destinations set up in `Options.__init__` exist; any other attribute
read raises `AttributeError` (modelled as `none`).  In particular
`bcl_directory` is not among them. -/
def namespaceAttr (o : ParsedOptions) (name : String) : Option Prim :=
  if name = "run_mode" then some (Prim.s o.run_mode)
  else if name = "outdir" then some (Prim.s o.outdir)
  else if name = "fastq_directory" then some (Prim.s o.fastq_directory)
  else if name = "input_pattern" then some (Prim.s o.input_pattern)
  else if name = "threads" then some (Prim.i o.threads)
  else none

/-- Modelled from the spec: `os.path.abspath` resolves a relative path
against the current working directory and returns an absolute-path
string; an already absolute path is returned independent of the
working directory (normalization of `.`/`..` segments elided: the
claims only concern already absolute inputs). -/
def abspath (cwd p : String) : String :=
  if p.startsWith "/" then p else cwd ++ "/" ++ p

/-- The config-patch step of `main`, main.py lines 89-93:

    cfg.input_directory = os.path.abspath(options.bcl_directory)
    cfg.bcl2fastq.threads = options.threads

Python evaluates the right-hand side first, so the read of
`options.bcl_directory` happens before any assignment; a missing
namespace attribute raises `AttributeError` and nothing is mutated.
The second line first reads `cfg.bcl2fastq` (attribute/key error when
absent, or when it is not a nested section) and then writes its
`threads` key. -/
def patchConfig (o : ParsedOptions) (cwd : String) (cfg : Config) :
    Except PyErr Config :=
  match namespaceAttr o "bcl_directory" with
  | none =>
    Except.error (PyErr.attributeError "Namespace" "bcl_directory")
  | some (Prim.i _) =>
    Except.error (PyErr.typeError "expected str, bytes or os.PathLike")
  | some (Prim.s d) =>
    let cfg1 := Config.setAttr cfg "input_directory"
      (CField.prim (Prim.s (abspath cwd d)))
    match Config.getAttr cfg1 "bcl2fastq" with
    | none =>
      Except.error (PyErr.attributeError "config" "bcl2fastq")
    | some (CField.prim _) =>
      Except.error (PyErr.attributeError "value" "threads")
    | some (CField.table t) =>
      Except.ok (Config.setAttr cfg1 "bcl2fastq"
        (CField.table (tableSet t "threads" (Prim.i o.threads))))

/-- Outcome of one process run: the process exit code, whether the
working directory was created (`manager.setup()` ran), and the
configuration serialized at `manager.teardown()` when that point was
reached. -/
structure RunOutcome where
  exitCode : Nat
  workdirCreated : Bool
  finalConfig : Option Config
deriving DecidableEq, Repr

/-- `main(args)` of main.py, lines 76-93, over the embedded external
contracts.  Modelled from the spec for the external collaborators:
argparse reports a usage error by exiting the process with code 2
before anything else runs; `manager.setup()` creates the working
directory and stages the template configuration in memory;
`manager.teardown()` is the only point where the configuration is
persisted; an uncaught Python exception terminates the process with
exit code 1. -/
def main (args : List String) (cwd : String) (template : Config) :
    RunOutcome :=
  match parse_args args with
  | Except.error _ =>
    { exitCode := 2, workdirCreated := false, finalConfig := none }
  | Except.ok opts =>
    match patchConfig opts cwd template with
    | Except.error _ =>
      { exitCode := 1, workdirCreated := true, finalConfig := none }
    | Except.ok cfg =>
      { exitCode := 0, workdirCreated := true, finalConfig := some cfg }

/-- Modelled from the spec: a concrete template configuration with the
two fields of interest at their template defaults, used to evaluate
runs on concrete inputs. -/
def templateConfig : Config :=
  [("input_directory", CField.prim (Prim.s "")),
   ("input_pattern", CField.prim (Prim.s "*fastq.gz")),
   ("bcl2fastq", CField.table [("threads", Prim.i 4)])]

/-- `strPrefix p l` holds when the character list `p` is a prefix of
`l`. -/
def strPrefix : List Char → List Char → Bool
  | [], _ => true
  | _ :: _, [] => false
  | c :: cs, d :: ds => c = d && strPrefix cs ds

/-- A token supplies the option `name` when it is exactly `name` or has
the inline form `name=value`.  An argument list omits an option exactly
when none of its tokens supplies it. -/
def suppliesFlag (tok name : String) : Bool :=
  tok = name || strPrefix (name.data ++ ['=']) tok.data

lemma strPrefix_append (l r : List Char) : strPrefix l (l ++ r) = true := by
  induction l with
  | nil => rfl
  | cons c cs ih => simp [strPrefix, ih]

lemma splitEqChars_self_of_none {cs : List Char}
    (h : (splitEqChars cs).2 = none) : (splitEqChars cs).1 = cs := by
  induction cs with
  | nil => rfl
  | cons c cs ih =>
    by_cases hc : c = '='
    · simp [splitEqChars, hc] at h
    · simp [splitEqChars, hc] at h ⊢
      exact ih h

lemma splitEqChars_recover_of_some {cs v : List Char}
    (h : (splitEqChars cs).2 = some v) :
    cs = (splitEqChars cs).1 ++ '=' :: v := by
  induction cs with
  | nil => simp [splitEqChars] at h
  | cons c cs ih =>
    by_cases hc : c = '='
    · subst hc
      simp [splitEqChars] at h ⊢
      exact h
    · simp [splitEqChars, hc] at h ⊢
      exact ih h

/-- If a token does not supply `name`, then the option string extracted
from the token differs from `name`. -/
lemma optString_ne_of_not_supplies {tok name : String}
    (h : suppliesFlag tok name = false) :
    String.mk (splitEqChars tok.data).1 ≠ name := by
  intro he
  simp only [suppliesFlag, Bool.or_eq_false_iff,
    decide_eq_false_iff_not] at h
  have hdata : (splitEqChars tok.data).1 = name.data :=
    congrArg String.data he
  rcases h2 : (splitEqChars tok.data).2 with _ | v
  · have h1 := splitEqChars_self_of_none h2
    exact h.1 (String.ext (h1 ▸ hdata).symm).symm
  · have hrec := splitEqChars_recover_of_some h2
    rw [hdata] at hrec
    have hpre : strPrefix (name.data ++ ['=']) tok.data = true := by
      rw [hrec]
      have hassoc : name.data ++ '=' :: v = (name.data ++ ['=']) ++ v := by
        simp
      rw [hassoc]
      exact strPrefix_append _ _
    rw [h.2] at hpre
    cases hpre

lemma lookupSpec_runMode {n : String}
    (h : lookupSpec n = some OptSpec.runMode) : n = "--run-mode" := by
  simp only [lookupSpec] at h
  split_ifs at h <;> simp_all

lemma lookupSpec_outputDirectory {n : String}
    (h : lookupSpec n = some OptSpec.outputDirectory) :
    n = "--output-directory" := by
  simp only [lookupSpec] at h
  split_ifs at h <;> simp_all

lemma lookupSpec_fastqDirectory {n : String}
    (h : lookupSpec n = some OptSpec.fastqDirectory) :
    n = "--fastq-directory" := by
  simp only [lookupSpec] at h
  split_ifs at h <;> simp_all

lemma lookupSpec_inputPattern {n : String}
    (h : lookupSpec n = some OptSpec.inputPattern) :
    n = "--input-pattern" := by
  simp only [lookupSpec] at h
  split_ifs at h <;> simp_all

lemma lookupSpec_threadsOpt {n : String}
    (h : lookupSpec n = some OptSpec.threadsOpt) : n = "--threads" := by
  simp only [lookupSpec] at h
  split_ifs at h <;> simp_all

/-- Generic frame lemma for the scanner: a state observation `f` that
every consumed option other than `flag` preserves is preserved by a
whole scan in which no token supplies `flag`. -/
lemma scan_preserves {α : Type} (f : ScanState → α) (flag : String)
    (happly : ∀ name spec v st st2, lookupSpec name = some spec →
      name ≠ flag → applyOpt spec v st = Except.ok st2 → f st2 = f st) :
    ∀ tokens st st2,
      (∀ tok ∈ tokens, suppliesFlag tok flag = false) →
      scanTokens tokens st = Except.ok st2 → f st2 = f st := by
  intro tokens st
  induction tokens, st using scanTokens.induct with
  | case1 st =>
    intro st2 _ hok
    cases hok
    rfl
  | case2 tok rest st hopt hname =>
    intro st2 _ hok
    simp [scanTokens, hopt, hname] at hok
  | case3 tok rest st hopt spec hname vChars hsplit st3 happ ih =>
    intro st2 hno hok
    simp [scanTokens, hopt, hname, hsplit, happ] at hok
    have hstep : f st3 = f st :=
      happly _ _ _ _ _ hname
        (optString_ne_of_not_supplies (hno tok (by simp))) happ
    have htail : f st2 = f st3 :=
      ih st2 (fun t ht => hno t (by simp [ht])) hok
    rw [htail, hstep]
  | case4 tok rest st hopt spec hname vChars hsplit e happ =>
    intro st2 _ hok
    simp [scanTokens, hopt, hname, hsplit, happ] at hok
  | case5 tok st hopt spec hname hsplit =>
    intro st2 _ hok
    simp [scanTokens, hopt, hname, hsplit] at hok
  | case6 tok st hopt spec hname hsplit v rest2 hvopt =>
    intro st2 _ hok
    simp [scanTokens, hopt, hname, hsplit, hvopt] at hok
  | case7 tok st hopt spec hname hsplit v rest2 hvnot st3 happ ih =>
    intro st2 hno hok
    simp [scanTokens, hopt, hname, hsplit, hvnot, happ] at hok
    have hstep : f st3 = f st :=
      happly _ _ _ _ _ hname
        (optString_ne_of_not_supplies (hno tok (by simp))) happ
    have htail : f st2 = f st3 :=
      ih st2 (fun t ht => hno t (by simp [ht])) hok
    rw [htail, hstep]
  | case8 tok st hopt spec hname hsplit v rest2 hvnot e happ =>
    intro st2 _ hok
    simp [scanTokens, hopt, hname, hsplit, hvnot, happ] at hok
  | case9 tok rest st hopt =>
    intro st2 _ hok
    simp [scanTokens, hopt] at hok

/-- Exhaustive description of a successful `applyOpt` step: exactly one
destination is written, and `--run-mode` / `--threads` values passed
their checks. -/
lemma applyOpt_shape (spec : OptSpec) (v : String) (st st2 : ScanState)
    (h : applyOpt spec v st = Except.ok st2) :
    (spec = OptSpec.runMode ∧ (v = "local" ∨ v = "slurm") ∧
      st2 = { st with run_mode := some v }) ∨
    (spec = OptSpec.outputDirectory ∧ st2 = { st with outdir := some v }) ∨
    (spec = OptSpec.fastqDirectory ∧
      st2 = { st with fastq_directory := some v }) ∨
    (spec = OptSpec.inputPattern ∧
      st2 = { st with input_pattern := some v }) ∨
    (∃ n, spec = OptSpec.threadsOpt ∧ pyInt v = some n ∧
      st2 = { st with threads := some n }) := by
  cases spec with
  | runMode =>
    simp only [applyOpt] at h
    split at h
    · cases h
      left
      exact ⟨rfl, by assumption, rfl⟩
    · cases h
  | outputDirectory =>
    cases h
    right; left
    exact ⟨rfl, rfl⟩
  | fastqDirectory =>
    cases h
    right; right; left
    exact ⟨rfl, rfl⟩
  | inputPattern =>
    cases h
    right; right; right; left
    exact ⟨rfl, rfl⟩
  | threadsOpt =>
    simp only [applyOpt] at h
    split at h
    · cases h
      right; right; right; right
      exact ⟨_, rfl, by assumption, rfl⟩
    · cases h

/-- A state predicate preserved by every successful `applyOpt` step is
preserved by a whole successful scan. -/
lemma scan_inv (P : ScanState → Prop)
    (happly : ∀ spec v st st2, applyOpt spec v st = Except.ok st2 →
      P st → P st2) :
    ∀ tokens st st2, P st → scanTokens tokens st = Except.ok st2 →
      P st2 := by
  intro tokens st
  induction tokens, st using scanTokens.induct with
  | case1 st =>
    intro st2 hP hok
    cases hok
    exact hP
  | case2 tok rest st hopt hname =>
    intro st2 _ hok
    simp [scanTokens, hopt, hname] at hok
  | case3 tok rest st hopt spec hname vChars hsplit st3 happ ih =>
    intro st2 hP hok
    simp [scanTokens, hopt, hname, hsplit, happ] at hok
    exact ih st2 (happly _ _ _ _ happ hP) hok
  | case4 tok rest st hopt spec hname vChars hsplit e happ =>
    intro st2 _ hok
    simp [scanTokens, hopt, hname, hsplit, happ] at hok
  | case5 tok st hopt spec hname hsplit =>
    intro st2 _ hok
    simp [scanTokens, hopt, hname, hsplit] at hok
  | case6 tok st hopt spec hname hsplit v rest2 hvopt =>
    intro st2 _ hok
    simp [scanTokens, hopt, hname, hsplit, hvopt] at hok
  | case7 tok st hopt spec hname hsplit v rest2 hvnot st3 happ ih =>
    intro st2 hP hok
    simp [scanTokens, hopt, hname, hsplit, hvnot, happ] at hok
    exact ih st2 (happly _ _ _ _ happ hP) hok
  | case8 tok st hopt spec hname hsplit v rest2 hvnot e happ =>
    intro st2 _ hok
    simp [scanTokens, hopt, hname, hsplit, hvnot, happ] at hok
  | case9 tok rest st hopt =>
    intro st2 _ hok
    simp [scanTokens, hopt] at hok

lemma scan_fastq_preserved (tokens : List String) (st st2 : ScanState)
    (hno : ∀ tok ∈ tokens, suppliesFlag tok "--fastq-directory" = false)
    (hok : scanTokens tokens st = Except.ok st2) :
    st2.fastq_directory = st.fastq_directory := by
  refine scan_preserves (fun s => s.fastq_directory) "--fastq-directory"
    ?_ tokens st st2 hno hok
  intro name spec v s s2 hname hne happ
  rcases applyOpt_shape spec v s s2 happ with
    ⟨hs, _, he⟩ | ⟨hs, he⟩ | ⟨hs, he⟩ | ⟨hs, he⟩ | ⟨n, hs, _, he⟩ <;>
    subst hs <;> subst he
  · rfl
  · rfl
  · exact absurd (lookupSpec_fastqDirectory hname) hne
  · rfl
  · rfl

lemma scan_run_mode_preserved (tokens : List String) (st st2 : ScanState)
    (hno : ∀ tok ∈ tokens, suppliesFlag tok "--run-mode" = false)
    (hok : scanTokens tokens st = Except.ok st2) :
    st2.run_mode = st.run_mode := by
  refine scan_preserves (fun s => s.run_mode) "--run-mode"
    ?_ tokens st st2 hno hok
  intro name spec v s s2 hname hne happ
  rcases applyOpt_shape spec v s s2 happ with
    ⟨hs, _, he⟩ | ⟨hs, he⟩ | ⟨hs, he⟩ | ⟨hs, he⟩ | ⟨n, hs, _, he⟩ <;>
    subst hs <;> subst he
  · exact absurd (lookupSpec_runMode hname) hne
  · rfl
  · rfl
  · rfl
  · rfl

lemma scan_outdir_preserved (tokens : List String) (st st2 : ScanState)
    (hno : ∀ tok ∈ tokens, suppliesFlag tok "--output-directory" = false)
    (hok : scanTokens tokens st = Except.ok st2) :
    st2.outdir = st.outdir := by
  refine scan_preserves (fun s => s.outdir) "--output-directory"
    ?_ tokens st st2 hno hok
  intro name spec v s s2 hname hne happ
  rcases applyOpt_shape spec v s s2 happ with
    ⟨hs, _, he⟩ | ⟨hs, he⟩ | ⟨hs, he⟩ | ⟨hs, he⟩ | ⟨n, hs, _, he⟩ <;>
    subst hs <;> subst he
  · rfl
  · exact absurd (lookupSpec_outputDirectory hname) hne
  · rfl
  · rfl
  · rfl

lemma scan_pattern_preserved (tokens : List String) (st st2 : ScanState)
    (hno : ∀ tok ∈ tokens, suppliesFlag tok "--input-pattern" = false)
    (hok : scanTokens tokens st = Except.ok st2) :
    st2.input_pattern = st.input_pattern := by
  refine scan_preserves (fun s => s.input_pattern) "--input-pattern"
    ?_ tokens st st2 hno hok
  intro name spec v s s2 hname hne happ
  rcases applyOpt_shape spec v s s2 happ with
    ⟨hs, _, he⟩ | ⟨hs, he⟩ | ⟨hs, he⟩ | ⟨hs, he⟩ | ⟨n, hs, _, he⟩ <;>
    subst hs <;> subst he
  · rfl
  · rfl
  · rfl
  · exact absurd (lookupSpec_inputPattern hname) hne
  · rfl

lemma scan_threads_preserved (tokens : List String) (st st2 : ScanState)
    (hno : ∀ tok ∈ tokens, suppliesFlag tok "--threads" = false)
    (hok : scanTokens tokens st = Except.ok st2) :
    st2.threads = st.threads := by
  refine scan_preserves (fun s => s.threads) "--threads"
    ?_ tokens st st2 hno hok
  intro name spec v s s2 hname hne happ
  rcases applyOpt_shape spec v s s2 happ with
    ⟨hs, _, he⟩ | ⟨hs, he⟩ | ⟨hs, he⟩ | ⟨hs, he⟩ | ⟨n, hs, _, he⟩ <;>
    subst hs <;> subst he
  · rfl
  · rfl
  · rfl
  · rfl
  · exact absurd (lookupSpec_threadsOpt hname) hne

/-- The patch step of `main` fails on every input: the right-hand side
of its first assignment reads `options.bcl_directory`, an attribute the
parser never defines (its destination is `fastq_directory`), so the
`AttributeError` is raised before anything is written. -/
lemma patch_always_raises (o : ParsedOptions) (cwd : String)
    (cfg : Config) :
    patchConfig o cwd cfg =
      Except.error (PyErr.attributeError "Namespace" "bcl_directory") :=
  rfl

/-- C1: the claim says the patch step sets `input_directory` to the
absolute form of the `--fastq-directory` value.  On the code this
fails: the parse of a valid argument list succeeds and stores the
directory under `fastq_directory`, but the patch step reads
`options.bcl_directory`, an attribute the parser never defines, so it
raises `AttributeError` and `input_directory` is never written; the
process dies with exit code 1 and no configuration is serialized. -/
theorem input_directory_patch_raises_attribute_error :
    parse_args ["--fastq-directory", "/data/run1", "--run-mode",
      "local"] =
      Except.ok { run_mode := "local", outdir := "fastqc",
                  fastq_directory := "/data/run1",
                  input_pattern := "*fastq.gz", threads := 4 } ∧
    patchConfig { run_mode := "local", outdir := "fastqc",
                  fastq_directory := "/data/run1",
                  input_pattern := "*fastq.gz", threads := 4 }
        "/cwd" templateConfig =
      Except.error (PyErr.attributeError "Namespace" "bcl_directory") ∧
    main ["--fastq-directory", "/data/run1", "--run-mode", "local"]
        "/cwd" templateConfig =
      { exitCode := 1, workdirCreated := true, finalConfig := none } := by
  exact ⟨by decide, by decide, by decide⟩

/-- C2: every successfully parsed argument list carries a `run_mode`
that is `local` or `slurm`, and every argument list the parser rejects
(in particular one with any other `--run-mode` value) terminates the
process with the usage exit code 2 before the working directory is
created or any filesystem action occurs. -/
theorem run_mode_restricted_to_choices :
    (∀ args opts, parse_args args = Except.ok opts →
      opts.run_mode = "local" ∨ opts.run_mode = "slurm") ∧
    (∀ args e cwd template, parse_args args = Except.error e →
      main args cwd template =
        { exitCode := 2, workdirCreated := false, finalConfig := none }) := by
  constructor
  · intro args opts hok
    unfold parse_args at hok
    rcases hscan : scanTokens args initState with e | st <;>
      rw [hscan] at hok <;> dsimp only at hok
    · cases hok
    · have hinv := scan_inv
        (fun s => s.run_mode = none ∨ s.run_mode = some "local" ∨
          s.run_mode = some "slurm")
        (by
          intro spec v s s2 happ hP
          rcases applyOpt_shape spec v s s2 happ with
            ⟨hs, hv, he⟩ | ⟨hs, he⟩ | ⟨hs, he⟩ | ⟨hs, he⟩ |
            ⟨n, hs, _, he⟩ <;> subst he
          · rcases hv with hv | hv <;> subst hv
            · right; left; rfl
            · right; right; rfl
          all_goals exact hP)
        args initState st (Or.inl rfl) hscan
      dsimp only at hinv
      rcases hr : st.run_mode with _ | rm <;>
        rcases hf : st.fastq_directory with _ | fd <;>
        rw [hr, hf] at hok <;> try cases hok
      rw [hr] at hinv
      rcases hinv with hinv | hinv | hinv
      · cases hinv
      · cases hinv
        left
        rfl
      · cases hinv
        right
        rfl
  · intro args e cwd template herr
    simp [main, herr]

/-- C2 witness: evaluated at a concrete accepted list (run mode
`local`) and at the concretely rejected `--run-mode cloud`. -/
theorem run_mode_restricted_to_choices_witness :
    (({ run_mode := "local", outdir := "fastqc",
        fastq_directory := "/d", input_pattern := "*fastq.gz",
        threads := 4 } : ParsedOptions).run_mode = "local" ∨
     ({ run_mode := "local", outdir := "fastqc",
        fastq_directory := "/d", input_pattern := "*fastq.gz",
        threads := 4 } : ParsedOptions).run_mode = "slurm") ∧
    main ["--run-mode", "cloud", "--fastq-directory", "/d"] "/cwd"
        templateConfig =
      { exitCode := 2, workdirCreated := false, finalConfig := none } :=
  ⟨run_mode_restricted_to_choices.1
      ["--run-mode", "local", "--fastq-directory", "/d"] _ (by decide),
   run_mode_restricted_to_choices.2
      ["--run-mode", "cloud", "--fastq-directory", "/d"]
      "argument --run-mode: invalid choice" "/cwd" templateConfig
      (by decide)⟩

/-- C3: the claim says the patch step writes the user-supplied
`--threads` value into `bcl2fastq.threads`.  On the code this fails:
the patch step raises `AttributeError` on `options.bcl_directory`
before reaching the thread assignment, so with `--threads 8` no
configuration is ever produced, let alone one carrying 8. -/
theorem bcl2fastq_threads_patch_never_reached :
    parse_args ["--fastq-directory", "/data/run1", "--run-mode",
      "local", "--threads", "8"] =
      Except.ok { run_mode := "local", outdir := "fastqc",
                  fastq_directory := "/data/run1",
                  input_pattern := "*fastq.gz", threads := 8 } ∧
    patchConfig { run_mode := "local", outdir := "fastqc",
                  fastq_directory := "/data/run1",
                  input_pattern := "*fastq.gz", threads := 8 }
        "/cwd" templateConfig =
      Except.error (PyErr.attributeError "Namespace" "bcl_directory") ∧
    main ["--fastq-directory", "/data/run1", "--run-mode", "local",
        "--threads", "8"] "/cwd" templateConfig =
      { exitCode := 1, workdirCreated := true, finalConfig := none } := by
  exact ⟨by decide, by decide, by decide⟩

/-- C4: the claim speaks of successful invocations mutating exactly
`input_directory` and `bcl2fastq.threads`.  On the code there is no
successful invocation: the patch step raises before its first
assignment, so it mutates nothing and teardown never serializes a
configuration. -/
theorem patch_never_mutates_any_field (o : ParsedOptions)
    (cwd : String) (cfg out : Config) :
    patchConfig o cwd cfg ≠ Except.ok out ∧
    main ["--run-mode", "slurm", "--fastq-directory", "/data/x",
        "--threads", "7"] "/work" templateConfig =
      { exitCode := 1, workdirCreated := true, finalConfig := none } := by
  constructor
  · rw [patch_always_raises]
    intro hc
    cases hc
  · decide

/-- C5: an argument list in which no token supplies
`--fastq-directory`, or none supplies `--run-mode`, is rejected by the
parser; the process exits with the usage code 2 and the working
directory is never created. -/
theorem missing_required_flag_rejected (args : List String)
    (cwd : String) (template : Config)
    (h : (∀ tok ∈ args, suppliesFlag tok "--fastq-directory" = false) ∨
         (∀ tok ∈ args, suppliesFlag tok "--run-mode" = false)) :
    (∃ e, parse_args args = Except.error e) ∧
    main args cwd template =
      { exitCode := 2, workdirCreated := false, finalConfig := none } := by
  have herr : ∃ e, parse_args args = Except.error e := by
    unfold parse_args
    rcases hscan : scanTokens args initState with e | st <;> dsimp only
    · exact ⟨e, rfl⟩
    · rcases h with h | h
      · have hpres := scan_fastq_preserved args initState st h hscan
        rcases hr : st.run_mode with _ | rm <;>
          rcases hf : st.fastq_directory with _ | fd <;>
          rw [hf] at hpres <;> dsimp only
        · exact ⟨_, rfl⟩
        · simp [initState] at hpres
        · exact ⟨_, rfl⟩
        · simp [initState] at hpres
      · have hpres := scan_run_mode_preserved args initState st h hscan
        rcases hr : st.run_mode with _ | rm <;>
          rcases hf : st.fastq_directory with _ | fd <;>
          rw [hr] at hpres <;> dsimp only
        · exact ⟨_, rfl⟩
        · exact ⟨_, rfl⟩
        · simp [initState] at hpres
        · simp [initState] at hpres
  obtain ⟨e, he⟩ := herr
  exact ⟨⟨e, he⟩, by simp [main, he]⟩

/-- C5 witness: `--run-mode local` alone omits `--fastq-directory`. -/
theorem missing_required_flag_rejected_witness :
    (∃ e, parse_args ["--run-mode", "local"] = Except.error e) ∧
    main ["--run-mode", "local"] "/cwd" templateConfig =
      { exitCode := 2, workdirCreated := false, finalConfig := none } :=
  missing_required_flag_rejected ["--run-mode", "local"] "/cwd"
    templateConfig (Or.inl (by decide))

/-- C6: when the staged configuration lacks the nested `bcl2fastq`
section needed by the thread assignment, the patch step raises an
uncaught attribute error and the process fails fatally (exit code 1, no
serialized configuration).  On this code the failure happens already at
the read of `options.bcl_directory`, before the configuration is even
consulted, so the conclusion holds for every staged configuration. -/
theorem missing_nested_field_fatal (args : List String)
    (opts : ParsedOptions) (cwd : String) (template : Config)
    (hok : parse_args args = Except.ok opts)
    (_hmiss : Config.getAttr template "bcl2fastq" = none) :
    (∃ obj attr, patchConfig opts cwd template =
      Except.error (PyErr.attributeError obj attr)) ∧
    main args cwd template =
      { exitCode := 1, workdirCreated := true, finalConfig := none } := by
  refine ⟨⟨_, _, patch_always_raises opts cwd template⟩, ?_⟩
  simp [main, hok, patch_always_raises]

/-- C6 witness: a staged configuration with no `bcl2fastq` section. -/
theorem missing_nested_field_fatal_witness :
    (∃ obj attr, patchConfig
      { run_mode := "local", outdir := "fastqc",
        fastq_directory := "/d", input_pattern := "*fastq.gz",
        threads := 4 } "/cwd"
      [("input_directory", CField.prim (Prim.s ""))] =
      Except.error (PyErr.attributeError obj attr)) ∧
    main ["--run-mode", "local", "--fastq-directory", "/d"] "/cwd"
        [("input_directory", CField.prim (Prim.s ""))] =
      { exitCode := 1, workdirCreated := true, finalConfig := none } :=
  missing_nested_field_fatal ["--run-mode", "local",
      "--fastq-directory", "/d"]
    { run_mode := "local", outdir := "fastqc", fastq_directory := "/d",
      input_pattern := "*fastq.gz", threads := 4 } "/cwd"
    [("input_directory", CField.prim (Prim.s ""))]
    (by decide) (by decide)

/-- C7: an argument list in which no token supplies
`--output-directory`, `--input-pattern` or `--threads` and that the
parser accepts produces the defaults `fastqc`, `*fastq.gz` and 4. -/
theorem omitted_optional_flags_default (args : List String)
    (opts : ParsedOptions)
    (h1 : ∀ tok ∈ args, suppliesFlag tok "--output-directory" = false)
    (h2 : ∀ tok ∈ args, suppliesFlag tok "--input-pattern" = false)
    (h3 : ∀ tok ∈ args, suppliesFlag tok "--threads" = false)
    (hok : parse_args args = Except.ok opts) :
    opts.outdir = "fastqc" ∧ opts.input_pattern = "*fastq.gz" ∧
      opts.threads = 4 := by
  unfold parse_args at hok
  rcases hscan : scanTokens args initState with e | st <;>
    rw [hscan] at hok <;> dsimp only at hok
  · cases hok
  · have ho := scan_outdir_preserved args initState st h1 hscan
    have hp := scan_pattern_preserved args initState st h2 hscan
    have ht := scan_threads_preserved args initState st h3 hscan
    rcases hr : st.run_mode with _ | rm <;>
      rcases hf : st.fastq_directory with _ | fd <;>
      rw [hr, hf] at hok <;> try cases hok
    rw [show initState.outdir = none from rfl] at ho
    rw [show initState.input_pattern = none from rfl] at hp
    rw [show initState.threads = none from rfl] at ht
    simp [ho, hp, ht]

/-- C7 witness: only the two required flags are supplied. -/
theorem omitted_optional_flags_default_witness :
    ({ run_mode := "local", outdir := "fastqc",
       fastq_directory := "/d", input_pattern := "*fastq.gz",
       threads := 4 } : ParsedOptions).outdir = "fastqc" ∧
    ({ run_mode := "local", outdir := "fastqc",
       fastq_directory := "/d", input_pattern := "*fastq.gz",
       threads := 4 } : ParsedOptions).input_pattern = "*fastq.gz" ∧
    ({ run_mode := "local", outdir := "fastqc",
       fastq_directory := "/d", input_pattern := "*fastq.gz",
       threads := 4 } : ParsedOptions).threads = 4 :=
  omitted_optional_flags_default
    ["--run-mode", "local", "--fastq-directory", "/d"] _
    (by decide) (by decide) (by decide) (by decide)

/-- C8 counterexample: the claim says no non-positive thread count
reaches the patch step, but the parser accepts `--threads 0` (argparse
`type=int` checks integrality, not positivity), producing an accepted
record with thread count 0, which is not positive. -/
theorem nonpositive_threads_accepted :
    parse_args ["--run-mode", "local", "--fastq-directory", "/d",
      "--threads", "0"] =
      Except.ok { run_mode := "local", outdir := "fastqc",
                  fastq_directory := "/d",
                  input_pattern := "*fastq.gz", threads := 0 } ∧
    ¬ (0 : Int) > 0 := by
  decide

/-- C8 amended: any `--threads` value that does not parse as an
integer is rejected with a usage error, but the accepted value may be
any integer — non-positive thread counts such as `-3` are accepted and
reach the patch step. -/
theorem threads_rejects_non_integer_only (v : String)
    (rest : List String) (st : ScanState)
    (hval : isOptionToken v = false) (hbad : pyInt v = none) :
    scanTokens ("--threads" :: v :: rest) st =
      Except.error "argument --threads: invalid int value" ∧
    parse_args ["--run-mode", "local", "--fastq-directory", "/d",
      "--threads", "-3"] =
      Except.ok { run_mode := "local", outdir := "fastqc",
                  fastq_directory := "/d",
                  input_pattern := "*fastq.gz", threads := -3 } ∧
    (main ["--run-mode", "local", "--fastq-directory", "/d",
        "--threads", "-3"] "/cwd" templateConfig).workdirCreated =
      true := by
  refine ⟨?_, by decide, by decide⟩
  have hopt : isOptionToken "--threads" = true := by decide
  have hname : lookupSpec
      (String.mk (splitEqChars ("--threads" : String).data).1) =
      some OptSpec.threadsOpt := by decide
  have hsplit : (splitEqChars ("--threads" : String).data).2 = none := by
    decide
  have hvnot : ¬ isOptionToken v = true := by
    rw [hval]
    intro hc
    cases hc
  have happ : applyOpt OptSpec.threadsOpt v st =
      Except.error "argument --threads: invalid int value" := by
    simp [applyOpt, hbad]
  simp [scanTokens, hopt, hname, hsplit, hvnot, happ]

/-- C8 witness for the amended claim, at the non-integer value
`abc`. -/
theorem threads_rejects_non_integer_only_witness :
    scanTokens ["--threads", "abc"] initState =
      Except.error "argument --threads: invalid int value" ∧
    parse_args ["--run-mode", "local", "--fastq-directory", "/d",
      "--threads", "-3"] =
      Except.ok { run_mode := "local", outdir := "fastqc",
                  fastq_directory := "/d",
                  input_pattern := "*fastq.gz", threads := -3 } ∧
    (main ["--run-mode", "local", "--fastq-directory", "/d",
        "--threads", "-3"] "/cwd" templateConfig).workdirCreated =
      true :=
  threads_rejects_non_integer_only "abc" [] initState
    (by decide) (by decide)

/-- C9: the whole run, and in particular the patch step, is a
deterministic function of the argument list, the working directory and
the staged template: two runs with identical inputs produce identical
outcomes, and the patch step produces identical configurations. -/
theorem run_deterministic (args : List String) (cwd : String)
    (template : Config) (r1 r2 : RunOutcome)
    (h1 : main args cwd template = r1)
    (h2 : main args cwd template = r2) :
    r1 = r2 ∧ ∀ o c1 c2, patchConfig o cwd template = c1 →
      patchConfig o cwd template = c2 → c1 = c2 := by
  refine ⟨h1.symm.trans h2, ?_⟩
  intro o c1 c2 hp1 hp2
  exact hp1.symm.trans hp2

/-- C9 witness: two evaluations of the same concrete invocation. -/
theorem run_deterministic_witness :
    ({ exitCode := 1, workdirCreated := true,
       finalConfig := none } : RunOutcome) =
      { exitCode := 1, workdirCreated := true, finalConfig := none } ∧
    ∀ o c1 c2, patchConfig o "/cwd" templateConfig = c1 →
      patchConfig o "/cwd" templateConfig = c2 → c1 = c2 :=
  run_deterministic
    ["--run-mode", "local", "--fastq-directory", "/d"] "/cwd"
    templateConfig _ _ (by decide) (by decide)

/-- C10: every argument list the parser rejects terminates the process
through the parser's error path with exit code exactly 2, with no
working directory created and no configuration written. -/
theorem parser_rejection_exits_with_code_two (args : List String)
    (cwd : String) (template : Config) (e : String)
    (h : parse_args args = Except.error e) :
    main args cwd template =
      { exitCode := 2, workdirCreated := false, finalConfig := none } := by
  simp [main, h]

/-- C10 witness: the concretely rejected invalid run-mode value. -/
theorem parser_rejection_exits_with_code_two_witness :
    main ["--run-mode", "cloud", "--fastq-directory", "/d"] "/cwd"
        templateConfig =
      { exitCode := 2, workdirCreated := false, finalConfig := none } :=
  parser_rejection_exits_with_code_two
    ["--run-mode", "cloud", "--fastq-directory", "/d"] "/cwd"
    templateConfig "argument --run-mode: invalid choice" (by decide)

end VariantCalling


